import Mathlib

/-!
Verification of the three-point-shooting dashboard (`public/scripts/app.js`).

The client-side chart code is shallowly embedded here:
JavaScript numbers are modelled as rationals (`ℚ`), seasons as integers,
optional record fields as `Option`, throwing code as `Except JsError`,
and the mutable `controllers` / chart closures as explicit state records
with pure state-transition functions.  The d3 library operations that the
code relies on (stable `Array.prototype.sort`, `Array.from(new Set(...))`
insertion order, `d3.bisector(...).center`, `d3.group`, `d3.greatest`,
keyed data joins) are embedded by their documented semantics.  Opaque
numeric scale objects (`d3.scaleSqrt`, `d3.scaleLinear` instances built
from data, geographic projections) are passed as function parameters.
-/

set_option maxHeartbeats 1000000

/-- A JavaScript runtime exception, as observed at an `init`-level catch. -/
inductive JsError where
  | typeError (msg : String) : JsError
deriving DecidableEq, Repr

/-- The error thrown when a chart container element is absent:
`d3.select` yields an empty selection, `container.node()` is `null`, and
`null.getBoundingClientRect()` raises a TypeError. -/
def nullAnchorError : JsError :=
  JsError.typeError "Cannot read properties of null"

/-- Record of `data/league_trends.json` (spec §3 SeasonMetric). -/
structure SeasonMetric where
  season : ℤ
  avgThreeAttempts : ℚ
  avgPoints : ℚ
  avgThreeRate : ℚ
deriving DecidableEq, Repr

/-- Record of `data/scoring_mix.json` (spec §3 ScoringMixRecord). -/
structure ScoringMixRecord where
  season : ℤ
  twoPct : ℚ
  threePct : ℚ
  ftPct : ℚ
deriving DecidableEq, Repr

/-- Record of `data/team_scatter.json` (spec §3 TeamSeasonStat); `winPct`
is the optional field that may be missing on a record. -/
structure TeamSeasonStat where
  season : ℤ
  teamId : ℤ
  city : String
  team : String
  conference : String
  avgThreeAttempts : ℚ
  threePct : ℚ
  winPct : Option ℚ
deriving DecidableEq, Repr

/-- Record of `data/three_heatmap.json` (spec §3 HeatmapCell). -/
structure HeatmapCell where
  season : ℤ
  abbr : String
  city : String
  team : String
  threeRate : ℚ
  threePct : ℚ
deriving DecidableEq, Repr

/-- Record of `data/team_map.json` (spec §3 TeamGeoStat). -/
structure TeamGeoStat where
  team : String
  city : String
  conference : String
  lat : ℚ
  lon : ℚ
  offRtg : ℚ
  threeRate : ℚ
  threePct : ℚ
deriving DecidableEq, Repr

/-- Record of `data/momentum_spiral.json` (spec §3 MomentumPoint). -/
structure MomentumPoint where
  season : ℤ
  momentum : ℚ
  avgThreeRate : ℚ
  avgThreePct : ℚ
deriving DecidableEq, Repr

open scoped List

/-- Decimal model of `d3.format(".1f")` (the dashboard's `numberFmt`):
round the absolute value to one decimal, half away from zero, and drop
the sign when the rounded value is zero (d3 clears `valueNegative` when
the formatted magnitude is zero). -/
def fmt1 (x : ℚ) : String :=
  let n : ℤ := (|x| * 10 + 1 / 2).floor
  (if x < 0 ∧ n ≠ 0 then "-" else "")
    ++ toString (n.natAbs / 10) ++ "." ++ toString (n.natAbs % 10)

/-- Decimal model of `d3.format(".1%")` (the dashboard's `percentFmt`). -/
def pct1 (x : ℚ) : String := fmt1 (x * 100) ++ "%"

section SortByQ

variable {α : Type} (key : α → ℚ)

/-- One insertion step of the stable insertion sort modelling
`Array.prototype.sort` with a consistent numeric comparator: the new
element goes in front of the first element whose key is not smaller, so
elements inserted earlier (which come later in the original array) stay
behind equal-key elements. -/
def insertByQ (x : α) : List α → List α
  | [] => [x]
  | h :: t => if key x ≤ key h then x :: h :: t else h :: insertByQ x t

/-- Stable ascending sort by a rational key; the embedding of the JS
stable `sort((a, b) => keyA - keyB)` (a descending comparator is the
same sort with the negated key). -/
def sortByQ : List α → List α
  | [] => []
  | x :: xs => insertByQ key x (sortByQ xs)

theorem insertByQ_perm (x : α) (l : List α) : insertByQ key x l ~ x :: l := by
  induction l with
  | nil => exact List.Perm.refl _
  | cons h t ih =>
    simp only [insertByQ]
    split
    · exact List.Perm.refl _
    · exact (List.Perm.cons h ih).trans (List.Perm.swap x h t)

theorem sortByQ_perm (l : List α) : sortByQ key l ~ l := by
  induction l with
  | nil => exact List.Perm.refl _
  | cons x xs ih => exact (insertByQ_perm key x _).trans (List.Perm.cons x ih)

theorem insertByQ_pairwise (x : α) (l : List α)
    (h : l.Pairwise (fun a b => key a ≤ key b)) :
    (insertByQ key x l).Pairwise (fun a b => key a ≤ key b) := by
  induction l with
  | nil => simp [insertByQ]
  | cons hd t ih =>
    rw [List.pairwise_cons] at h
    simp only [insertByQ]
    split
    · rename_i hle
      rw [List.pairwise_cons]
      refine ⟨fun b hb => ?_, List.pairwise_cons.mpr h⟩
      rcases List.mem_cons.mp hb with rfl | hb
      · exact hle
      · exact le_trans hle (h.1 b hb)
    · rename_i hgt
      rw [List.pairwise_cons]
      refine ⟨fun b hb => ?_, ih h.2⟩
      rcases List.mem_cons.mp ((insertByQ_perm key x t).mem_iff.mp hb) with rfl | hb'
      · exact le_of_lt (lt_of_not_le hgt)
      · exact h.1 b hb' 

theorem sortByQ_pairwise (l : List α) :
    (sortByQ key l).Pairwise (fun a b => key a ≤ key b) := by
  induction l with
  | nil => simp [sortByQ]
  | cons x xs ih => exact insertByQ_pairwise key x _ ih

theorem insertByQ_keeps (x : α) (l : List α) : l <+ insertByQ key x l := by
  induction l with
  | nil => simp [insertByQ]
  | cons h t ih =>
    simp only [insertByQ]
    split
    · exact (List.Sublist.refl (h :: t)).cons x
    · exact ih.cons₂ h

theorem insertByQ_before (x b : α) (l : List α) (hk : key x ≤ key b)
    (hb : b ∈ l) : [x, b] <+ insertByQ key x l := by
  induction l with
  | nil => cases hb
  | cons h t ih =>
    simp only [insertByQ]
    split
    · exact (List.singleton_sublist.mpr hb).cons₂ x
    · rename_i hgt
      have hch : key h < key x := lt_of_not_le hgt
      rcases List.mem_cons.mp hb with rfl | hbt
      · exact absurd (lt_of_lt_of_le hch hk) (lt_irrefl _)
      · exact (ih hbt).cons h

theorem sortByQ_stable (a b : α) (l : List α) (hk : key a = key b)
    (hs : [a, b] <+ l) : [a, b] <+ sortByQ key l := by
  induction l with
  | nil => cases hs
  | cons x xs ih =>
    cases hs with
    | cons _ hs' => exact (ih hs').trans (insertByQ_keeps key x _)
    | cons₂ _ hs' =>
      have hb : b ∈ sortByQ key xs :=
        (sortByQ_perm key xs).mem_iff.mpr (List.singleton_sublist.mp hs')
      exact insertByQ_before key a b _ (le_of_eq hk) hb

theorem sortByQ_strict (l : List α) (hnd : (l.map key).Nodup) :
    (sortByQ key l).Pairwise (fun a b => key a < key b) := by
  have hperm : (sortByQ key l).map key ~ l.map key := (sortByQ_perm key l).map key
  have hnd' : ((sortByQ key l).map key).Nodup := hperm.symm.nodup hnd
  have hne : (sortByQ key l).Pairwise (fun a b => key a ≠ key b) :=
    (List.pairwise_map).mp hnd'
  exact List.Pairwise.imp (fun h => lt_of_le_of_ne h.1 h.2)
    ((sortByQ_pairwise key l).and hne)

theorem sortByQ_eq_of_perm (l₁ l₂ : List α) (hp : l₁ ~ l₂)
    (hnd : (l₁.map key).Nodup) : sortByQ key l₁ = sortByQ key l₂ := by
  have hnd₂ : (l₂.map key).Nodup := (hp.map key).nodup hnd
  have h₁ := sortByQ_strict key l₁ hnd
  have h₂ := sortByQ_strict key l₂ hnd₂
  have hp' : sortByQ key l₁ ~ sortByQ key l₂ :=
    ((sortByQ_perm key l₁).trans hp).trans (sortByQ_perm key l₂).symm
  exact @List.eq_of_perm_of_sorted α (fun a b => key a < key b)
    ⟨fun a b h1 h2 => absurd (lt_trans h1 h2) (lt_irrefl _)⟩ _ _ hp' h₁ h₂

end SortByQ

/-- The last element of the nonempty list `x :: l` (the `sorted[sorted.length - 1]`
access in `updateHeroMetrics` and the `data[data.length - 1]` fallbacks). -/
def lastD {α : Type} (x : α) : List α → α
  | [] => x
  | y :: ys => lastD y ys

theorem lastD_mem {α : Type} (x : α) (l : List α) : lastD x l ∈ x :: l := by
  induction l generalizing x with
  | nil => simp [lastD]
  | cons y ys ih => exact List.mem_cons_of_mem x (ih y)

theorem lastD_pairwise {α : Type} {r : α → α → Prop} (hrefl : ∀ a, r a a)
    (x : α) (l : List α) (hp : (x :: l).Pairwise r) :
    ∀ d ∈ x :: l, r d (lastD x l) := by
  induction l generalizing x with
  | nil =>
    intro d hd
    have hdx : d = x := by simpa using hd
    subst hdx
    simpa [lastD] using hrefl d
  | cons y ys ih =>
    intro d hd
    rw [List.pairwise_cons] at hp
    rcases List.mem_cons.mp hd with rfl | hd
    · exact hp.1 _ (lastD_mem y ys)
    · exact ih y hp.2 d hd

theorem getLast?_eq_lastD {α : Type} (x : α) (l : List α) :
    (x :: l).getLast? = some (lastD x l) := by
  induction l generalizing x with
  | nil => rfl
  | cons y ys ih => rw [List.getLast?_cons_cons, ih]; rfl

section DedupFirst

variable {α : Type} [DecidableEq α]

/-- Helper for `dedupFirst`: drop elements already seen. -/
def dedupFirstAux (seen : List α) : List α → List α
  | [] => []
  | x :: xs =>
    if x ∈ seen then dedupFirstAux seen xs else x :: dedupFirstAux (x :: seen) xs

/-- The embedding of `Array.from(new Set(list))`: keep the first occurrence
of each element, in order of first appearance. -/
def dedupFirst (l : List α) : List α := dedupFirstAux [] l

theorem mem_dedupFirstAux (a : α) (seen l : List α) :
    a ∈ dedupFirstAux seen l ↔ a ∈ l ∧ a ∉ seen := by
  induction l generalizing seen with
  | nil => simp [dedupFirstAux]
  | cons x xs ih =>
    simp only [dedupFirstAux]
    split
    · rename_i hx
      rw [ih]
      constructor
      · rintro ⟨h1, h2⟩; exact ⟨List.mem_cons.mpr (Or.inr h1), h2⟩
      · rintro ⟨h1, h2⟩
        rcases List.mem_cons.mp h1 with h | h
        · subst h; exact absurd hx h2
        · exact ⟨h, h2⟩
    · rename_i hx
      rw [List.mem_cons, ih]
      constructor
      · rintro (h | ⟨h1, h2⟩)
        · subst h; exact ⟨List.mem_cons.mpr (Or.inl rfl), hx⟩
        · refine ⟨List.mem_cons.mpr (Or.inr h1), fun hc => h2 (List.mem_cons.mpr (Or.inr hc))⟩
      · rintro ⟨h1, h2⟩
        rcases List.mem_cons.mp h1 with h | h
        · exact Or.inl h
        · by_cases hax : a = x
          · exact Or.inl hax
          · exact Or.inr ⟨h, fun hc => by
              rcases List.mem_cons.mp hc with hc' | hc'
              · exact hax hc'
              · exact h2 hc'⟩

theorem mem_dedupFirst (a : α) (l : List α) : a ∈ dedupFirst l ↔ a ∈ l := by
  rw [dedupFirst, mem_dedupFirstAux]; simp

theorem dedupFirstAux_nodup (seen l : List α) : (dedupFirstAux seen l).Nodup := by
  induction l generalizing seen with
  | nil => simp [dedupFirstAux]
  | cons x xs ih =>
    simp only [dedupFirstAux]
    split
    · exact ih seen
    · rw [List.nodup_cons]
      refine ⟨fun hc => ?_, ih (x :: seen)⟩
      have := (mem_dedupFirstAux x (x :: seen) xs).mp hc
      exact this.2 (List.mem_cons.mpr (Or.inl rfl))

theorem dedupFirst_nodup (l : List α) : (dedupFirst l).Nodup :=
  dedupFirstAux_nodup [] l

end DedupFirst

/-- Sort a `SeasonMetric` array ascending by season: the embedding of
`data.slice().sort((a, b) => a.season - b.season)` (applied to the copy). -/
def sortBySeason (l : List SeasonMetric) : List SeasonMetric :=
  sortByQ (fun d => (d.season : ℚ)) l

/-- Growth figure computed by `updateHeroMetrics` from the ascending-sorted
array: `((last.avgThreeRate - first.avgThreeRate) / first.avgThreeRate) * 100`
with `first = sorted[0]` and `last = sorted[sorted.length - 1]`. -/
def growthOfSorted : List SeasonMetric → Option ℚ
  | [] => none
  | f :: rest =>
    some (((lastD f rest).avgThreeRate - f.avgThreeRate) / f.avgThreeRate * 100)

/-- The growth value `updateHeroMetrics` computes for a raw array: sort a
copy by season, then apply the first/last formula; `none` when the array
is empty (the function returns before updating the DOM). -/
def heroGrowth (data : List SeasonMetric) : Option ℚ :=
  growthOfSorted (sortBySeason data)

/-- The text written to `#avgGrowth`: a leading plus sign for non-negative
growth, then the `.1f`-formatted value. -/
def heroText (data : List SeasonMetric) : Option String :=
  (heroGrowth data).map (fun g => (if 0 ≤ g then "+" else "") ++ fmt1 g)

/-- One entry of the league-trends `metricConfig` array: key, button/tooltip
label, value accessor, value formatter and tooltip suffix. -/
structure Metric where
  key : String
  label : String
  suffix : String
  acc : SeasonMetric → ℚ
  fmtFn : ℚ → String

/-- The three league-trends metrics, in source order. -/
def metricConfig : List Metric :=
  [ { key := "avgThreeAttempts", label := "3PA per team game",
      suffix := " attempts", acc := fun d => d.avgThreeAttempts,
      fmtFn := fun q => fmt1 q },
    { key := "avgPoints", label := "Points per team game",
      suffix := " pts", acc := fun d => d.avgPoints,
      fmtFn := fun q => fmt1 q },
    { key := "avgThreeRate", label := "Share of FGA that are 3s",
      suffix := "", acc := fun d => d.avgThreeRate * 100,
      fmtFn := fun q => fmt1 q ++ "%" } ]

/-- Structured content of the shared tooltip: the bold season header and
one rendered row per listed (metric key, row text) pair; the HTML span
markup of the source is elided, the row text keeps label, formatted value
and suffix. -/
structure TooltipView where
  season : ℤ
  rows : List (String × String)
deriving DecidableEq, Repr

/-- Tooltip built by the league chart's `showTooltip`: rows are the
`metricConfig` entries filtered by `!activeMetric || activeMetric === key`,
each rendered as label, formatted accessor value and suffix. -/
def leagueTooltip (active : Option String) (d : SeasonMetric) : TooltipView :=
  { season := d.season,
    rows := (metricConfig.filter
        (fun m => decide (active = none) || decide (active = some m.key))).map
      (fun m => (m.key, m.label ++ ": " ++ m.fmtFn (m.acc d) ++ m.suffix)) }

/-- Closure state of the league-trends chart: the season-sorted data, the
`activeMetric` filter, the crosshair position and the tooltip content
(its focus dots follow the same datum as the crosshair). -/
structure LeagueState where
  data : List SeasonMetric
  activeMetric : Option String
  crosshairSeason : Option ℤ
  tooltip : Option TooltipView
deriving DecidableEq, Repr

/-- The league control's `setMetric(key)`: overwrite `activeMetric` and
restyle (styling is visual only). -/
def leagueSetMetric (k : Option String) (st : LeagueState) : LeagueState :=
  { st with activeMetric := k }

/-- The league control's `focusSeason(season)`:
`data.find(d => d.season === season) || data[data.length - 1]`, then move
the crosshair and show the tooltip for that datum.  When the data array is
empty the fallback indexes `data[-1]` and dereferencing `undefined.season`
throws. -/
def leagueFocusSeason (s : Option ℤ) (st : LeagueState) :
    Except JsError LeagueState :=
  match (st.data.find? (fun d => decide (s = some d.season))).orElse
      (fun _ => st.data.getLast?) with
  | some datum =>
    .ok { st with crosshairSeason := some datum.season,
                  tooltip := some (leagueTooltip st.activeMetric datum) }
  | none => .error (JsError.typeError "Cannot read properties of undefined")

/-- Tooltip built by the scoring-mix chart's `showSeason`: one row per
stacked key, value formatted with `percentFmt`. -/
def scoringTooltip (d : ScoringMixRecord) : TooltipView :=
  { season := d.season,
    rows := [ ("twoPct", "Points from 2s: " ++ pct1 d.twoPct),
              ("threePct", "Points from 3s: " ++ pct1 d.threePct),
              ("ftPct", "Points from FT: " ++ pct1 d.ftPct) ] }

/-- Closure state of the scoring-mix chart: sorted data, focus line
position and tooltip content. -/
structure ScoringState where
  data : List ScoringMixRecord
  focusLineSeason : Option ℤ
  tooltip : Option TooltipView
deriving DecidableEq, Repr

/-- The scoring control's `focusSeason(season)`: find-or-last fallback
exactly as in the league chart, then `showSeason`. -/
def scoringFocusSeason (s : Option ℤ) (st : ScoringState) :
    Except JsError ScoringState :=
  match (st.data.find? (fun d => decide (s = some d.season))).orElse
      (fun _ => st.data.getLast?) with
  | some datum =>
    .ok { st with focusLineSeason := some datum.season,
                  tooltip := some (scoringTooltip datum) }
  | none => .error (JsError.typeError "Cannot read properties of undefined")

/-- Closure state of the momentum-spiral chart: sorted data, the datum the
dots are enlarged for (`d === datum`), and the label text. -/
structure SpiralState where
  data : List MomentumPoint
  focused : Option MomentumPoint
  labelText : String
deriving DecidableEq, Repr

/-- The spiral control's `focusSeason(season)`: find-or-last fallback,
enlarge the matching dot and write the season label.  On empty data the
fallback datum is `undefined` and `datum.momentum` (used for the label
position) throws. -/
def spiralFocusSeason (s : Option ℤ) (st : SpiralState) :
    Except JsError SpiralState :=
  match (st.data.find? (fun d => decide (s = some d.season))).orElse
      (fun _ => st.data.getLast?) with
  | some datum =>
    .ok { st with focused := some datum,
                  labelText := toString datum.season ++ " momentum wave" }
  | none => .error (JsError.typeError "Cannot read properties of undefined")

/-- Target attributes of one scatter bubble after its transition: keyed by
`teamId`, positioned at the scaled attempts/accuracy, radius from the
scaled win percentage with the `?? 0.5` default. -/
structure Bubble where
  teamId : ℤ
  cx : ℚ
  cy : ℚ
  rTarget : ℚ
deriving DecidableEq, Repr

/-- Build the bubble bound to one record, given the chart's x, y and
radius scales: `cx = x(d.avgThreeAttempts)`, `cy = y(d.threePct * 100)`,
`r = r(d.winPct ?? 0.5)`. -/
def mkBubble (xs ys rs : ℚ → ℚ) (d : TeamSeasonStat) : Bubble :=
  { teamId := d.teamId,
    cx := xs d.avgThreeAttempts,
    cy := ys (d.threePct * 100),
    rTarget := rs (d.winPct.getD (1 / 2)) }

/-- The domain of the scatter radius scale `d3.scaleSqrt().domain([0.2, 0.8])`. -/
def scatterRDomain : ℚ × ℚ := (1 / 5, 4 / 5)

/-- The win-percentage text in the scatter tooltip:
`d.winPct ? numberFmt(d.winPct * 100) + "%" : "N/A"` (zero is falsy). -/
def winPctText (d : TeamSeasonStat) : String :=
  match d.winPct with
  | some w => if w = 0 then "N/A" else fmt1 (w * 100) ++ "%"
  | none => "N/A"

/-- The scatter tooltip HTML up to the win-percentage value. -/
def scatterTooltipBase (d : TeamSeasonStat) : String :=
  "<strong>" ++ d.city ++ " " ++ d.team ++ "</strong><br>"
    ++ fmt1 d.avgThreeAttempts ++ " 3PA • " ++ fmt1 (d.threePct * 100)
    ++ "%<br>Win %: "

/-- The full scatter tooltip HTML for a hovered bubble. -/
def scatterTooltipHtml (d : TeamSeasonStat) : String :=
  scatterTooltipBase d ++ winPctText d

/-- The embedding of `d3.greatest(list, accessor)`: the first element with
the strictly greatest accessor value, `none` on an empty list. -/
def greatestBy {α : Type} (f : α → ℚ) : List α → Option α
  | [] => none
  | x :: xs =>
    match greatestBy f xs with
    | none => some x
    | some y => some (if f x < f y then y else x)

/-- The `#teamInsight` sentence for one season's records, driven by
`d3.greatest(seasonData, d => d.winPct ?? 0)`. -/
def insightText (seasonData : List TeamSeasonStat) : String :=
  match greatestBy (fun d => d.winPct.getD 0) seasonData with
  | some top =>
    (top.city ++ " " ++ top.team).trim ++ " combined "
      ++ fmt1 top.avgThreeAttempts ++ " 3PA and "
      ++ fmt1 (top.threePct * 100) ++ "% accuracy for "
      ++ (match top.winPct with
          | some w => if w = 0 then "a winning profile." else fmt1 (w * 100) ++ "% wins."
          | none => "a winning profile.")
  | none => "No team data for this season."

/-- DOM state of the scatter widget after an update: the
`#seasonLabel` text, the `#teamInsight` text, and the circles bound by the
keyed join with their target attributes (DOM order of pre-existing nodes
is irrelevant to the claims; the bound set is kept in data order). -/
structure ScatterState where
  label : String
  insight : String
  bound : List Bubble
deriving DecidableEq, Repr

/-- Keys classified by one keyed join: data keys with no current node
(enter) and current-node keys with no datum (exit). -/
structure JoinInfo where
  entered : List ℤ
  exited : List ℤ
deriving DecidableEq, Repr

/-- The scatter chart's `updateSeason(season)`: look up the season's group
(`d3.group` by season, i.e. the records filtered in input order), join by
`teamId` (enter appends, update retargets, exit removes), and rewrite the
label and insight texts. -/
def updateScatterSeason (xs ys rs : ℚ → ℚ) (data : List TeamSeasonStat)
    (season : ℤ) (st : ScatterState) : ScatterState × JoinInfo :=
  let seasonData := data.filter (fun d => decide (d.season = season))
  let newBound := seasonData.map (mkBubble xs ys rs)
  let oldKeys := st.bound.map (fun b => b.teamId)
  let newKeys := newBound.map (fun b => b.teamId)
  ({ label := toString season,
     insight := insightText seasonData,
     bound := newBound },
   { entered := newKeys.filter (fun k => !(oldKeys.contains k)),
     exited := oldKeys.filter (fun k => !(newKeys.contains k)) })

/-- The latest season in the heatmap data: `Math.max(...seasons)`
(undefined on an empty array, where `-Infinity` would propagate). -/
def latestSeasonOf (data : List HeatmapCell) : Option ℤ :=
  (data.map (fun d => d.season)).max?

/-- The latest-season three-point rate of a team code:
`teamLatest.get(abbr)?.threeRate ?? 0`, where `teamLatest` maps each code
to the first record of the latest season with that code (`d3.rollup` with
reducer `v => v[0]`). -/
def latestRate (data : List HeatmapCell) (a : String) : ℚ :=
  match data.find? (fun d =>
      decide (latestSeasonOf data = some d.season) && decide (d.abbr = a)) with
  | some d => d.threeRate
  | none => 0

/-- Heatmap row order: the team codes in order of first appearance
(`Array.from(new Set(...))`), stable-sorted by `d3.descending` on the
latest-season rate (descending rate is ascending negated rate). -/
def heatmapTeams (data : List HeatmapCell) : List String :=
  sortByQ (fun a => -(latestRate data a)) (dedupFirst (data.map (fun d => d.abbr)))

/-- Presence of the DOM elements the dashboard reads, plus the value the
`#seasonSlider` input carries before any data is written to it (`none`
models an empty/falsy `slider.value`). -/
structure DomEnv where
  leagueTrendChart : Bool
  scoringMixChart : Bool
  teamScatter : Bool
  heatmapChart : Bool
  teamMap : Bool
  momentumSpiral : Bool
  seasonSlider : Bool
  seasonLabel : Bool
  teamInsight : Bool
  seasonSliderValue : Option ℤ
deriving DecidableEq, Repr

/-- `renderLeagueTrends`: sorts a copy of the data, then dereferences the
`#leagueTrendChart` container node — a missing container therefore throws
before anything is drawn; otherwise the chart is built and the control
closes over the sorted data with no active metric. -/
def renderLeagueTrends (env : DomEnv) (raw : List SeasonMetric) :
    Except JsError (LeagueState × List String) :=
  if env.leagueTrendChart then
    .ok ({ data := sortBySeason raw, activeMetric := none,
           crosshairSeason := none, tooltip := none }, [])
  else .error nullAnchorError

/-- `renderScoringMix`: same container-first structure over
`#scoringMixChart`. -/
def renderScoringMix (env : DomEnv) (raw : List ScoringMixRecord) :
    Except JsError (ScoringState × List String) :=
  if env.scoringMixChart then
    .ok ({ data := sortByQ (fun d => (d.season : ℚ)) raw,
           focusLineSeason := none, tooltip := none }, [])
  else .error nullAnchorError

/-- The control object returned by `renderTeamScatter`: the empty object
`{}` when the slider elements are missing, otherwise the full interface
closing over the widget state. -/
inductive ScatterResult where
  | empty : ScatterResult
  | active (st : ScatterState) : ScatterResult
deriving DecidableEq, Repr

/-- The distinct seasons of the scatter data, ascending (`Array.from(new
Set(...)).sort((a, b) => a - b)`). -/
def scatterSeasons (data : List TeamSeasonStat) : List ℤ :=
  sortByQ (fun z => (z : ℚ)) (dedupFirst (data.map (fun d => d.season)))

/-- `renderTeamScatter`: dereferences the `#teamScatter` container (throws
when absent), filters out records with falsy attempts/accuracy, then
checks `#seasonSlider` / `#seasonLabel` / `#teamInsight` — if any is
missing it warns and returns the empty control object.  Otherwise the
slider is set to the latest season (kept at its prior value when the data
has no seasons) and `updateSeason` runs for the slider value if truthy. -/
def renderTeamScatter (env : DomEnv) (xs ys rs : ℚ → ℚ)
    (raw : List TeamSeasonStat) : Except JsError (ScatterResult × List String) :=
  if env.teamScatter then
    let data := raw.filter (fun d =>
      decide (d.avgThreeAttempts ≠ 0) && decide (d.threePct ≠ 0))
    if env.seasonSlider && env.seasonLabel && env.teamInsight then
      let initSeason :=
        match (scatterSeasons data).getLast? with
        | some s => some s
        | none => env.seasonSliderValue
      match initSeason with
      | some s =>
        .ok (.active (updateScatterSeason xs ys rs data s
              { label := "", insight := "", bound := [] }).1, [])
      | none => .ok (.active { label := "", insight := "", bound := [] }, [])
    else
      .ok (.empty, ["Missing slider elements for the team scatter chart."])
  else .error nullAnchorError

/-- Rows of the rendered heatmap (its cells and highlight interaction are
visual; the claims concern the row order). -/
structure HeatmapState where
  teams : List String
deriving DecidableEq, Repr

/-- `renderHeatmap`: dereferences `#heatmapChart` (throws when absent),
then derives the row order. -/
def renderHeatmap (env : DomEnv) (raw : List HeatmapCell) :
    Except JsError (HeatmapState × List String) :=
  if env.heatmapChart then .ok ({ teams := heatmapTeams raw }, [])
  else .error nullAnchorError

/-- One projected team bubble on the map. -/
structure PositionedTeam where
  team : String
  city : String
  conference : String
  offRtg : ℚ
  threeRate : ℚ
  threePct : ℚ
  cx : ℚ
  cy : ℚ
deriving DecidableEq, Repr

/-- Bubbles of the rendered map. -/
structure MapState where
  positioned : List PositionedTeam
deriving DecidableEq, Repr

/-- `renderTeamMap`: dereferences `#teamMap` (throws when absent), then
projects each team through the fitted projection, dropping teams the
projection maps to `null` (`.filter(Boolean)`). -/
def renderTeamMap (env : DomEnv) (proj : ℚ → ℚ → Option (ℚ × ℚ))
    (raw : List TeamGeoStat) (statesTopo : Option Unit) :
    Except JsError (MapState × List String) :=
  if env.teamMap then
    .ok ({ positioned := raw.filterMap (fun d =>
        (proj d.lon d.lat).map (fun c =>
          { team := d.team, city := d.city, conference := d.conference,
            offRtg := d.offRtg, threeRate := d.threeRate,
            threePct := d.threePct, cx := c.1, cy := c.2 })) }, [])
  else .error nullAnchorError

/-- `renderMomentumSpiral`: dereferences `#momentumSpiral` (throws when
absent), sorts a copy by season, draws the spiral and finally calls
`focusSeason(data[0]?.season)` — which itself throws on empty data. -/
def renderMomentumSpiral (env : DomEnv) (raw : List MomentumPoint) :
    Except JsError (SpiralState × List String) :=
  if env.momentumSpiral then
    let data := sortByQ (fun d => (d.season : ℚ)) raw
    match spiralFocusSeason (data.head?.map (fun d => d.season))
        { data := data, focused := none, labelText := "" } with
    | .ok st => .ok (st, [])
    | .error e => .error e
  else .error nullAnchorError

/-- The seven parallel dataset fetches of `init`, each either parsed data
or a fetch/parse rejection. -/
structure FetchResults where
  leagueTrends : Except JsError (List SeasonMetric)
  scoringMix : Except JsError (List ScoringMixRecord)
  teamScatter : Except JsError (List TeamSeasonStat)
  heatmapData : Except JsError (List HeatmapCell)
  teamMapData : Except JsError (List TeamGeoStat)
  spiralData : Except JsError (List MomentumPoint)
  statesTopo : Except JsError (Option Unit)
deriving Repr

/-- The datasets once every fetch has resolved. -/
structure FetchData where
  leagueTrends : List SeasonMetric
  scoringMix : List ScoringMixRecord
  teamScatter : List TeamSeasonStat
  heatmapData : List HeatmapCell
  teamMapData : List TeamGeoStat
  spiralData : List MomentumPoint
  statesTopo : Option Unit
deriving Repr

/-- `Promise.all` over the seven fetches: the data when all resolve, the
rejection otherwise. -/
def promiseAll (f : FetchResults) : Except JsError FetchData :=
  match f.leagueTrends with
  | .error e => .error e
  | .ok lt =>
    match f.scoringMix with
    | .error e => .error e
    | .ok sm =>
      match f.teamScatter with
      | .error e => .error e
      | .ok ts =>
        match f.heatmapData with
        | .error e => .error e
        | .ok hm =>
          match f.teamMapData with
          | .error e => .error e
          | .ok tm =>
            match f.spiralData with
            | .error e => .error e
            | .ok sp =>
              match f.statesTopo with
              | .error e => .error e
              | .ok topo =>
                .ok { leagueTrends := lt, scoringMix := sm, teamScatter := ts,
                      heatmapData := hm, teamMapData := tm, spiralData := sp,
                      statesTopo := topo }

/-- Outcome of `init`: the hero text, the controllers registered in the
module-wide `controllers` object, the charts whose render completed, the
story-step setup flag and the console-error log. -/
structure BootResult where
  heroText : Option String := none
  league : Option LeagueState := none
  scoring : Option ScoringState := none
  scatter : Option ScatterResult := none
  heatmap : Option HeatmapState := none
  map : Option MapState := none
  spiral : Option SpiralState := none
  renderedCharts : List String := []
  storySetup : Bool := false
  log : List String := []
deriving Repr

/-- The body of `init`'s `try` block after all fetches resolved: render
the charts in source order, registering each controller as it returns;
a renderer that throws sends control to the `catch`, keeping the
controllers registered so far and logging the boot error. -/
def initAfterFetch (env : DomEnv) (xs ys rs : ℚ → ℚ)
    (proj : ℚ → ℚ → Option (ℚ × ℚ)) (d : FetchData) : BootResult :=
  let hero := heroText d.leagueTrends
  match renderLeagueTrends env d.leagueTrends with
  | .error _ => { heroText := hero, log := ["Failed to boot dashboard"] }
  | .ok (lc, _) =>
    match renderScoringMix env d.scoringMix with
    | .error _ =>
      { heroText := hero, league := some lc, renderedCharts := ["league"],
        log := ["Failed to boot dashboard"] }
    | .ok (sc, _) =>
      match renderTeamScatter env xs ys rs d.teamScatter with
      | .error _ =>
        { heroText := hero, league := some lc, scoring := some sc,
          renderedCharts := ["league", "scoring"],
          log := ["Failed to boot dashboard"] }
      | .ok (tc, _) =>
        match renderHeatmap env d.heatmapData with
        | .error _ =>
          { heroText := hero, league := some lc, scoring := some sc,
            scatter := some tc, renderedCharts := ["league", "scoring", "scatter"],
            log := ["Failed to boot dashboard"] }
        | .ok (hc, _) =>
          match renderTeamMap env proj d.teamMapData d.statesTopo with
          | .error _ =>
            { heroText := hero, league := some lc, scoring := some sc,
              scatter := some tc, heatmap := some hc,
              renderedCharts := ["league", "scoring", "scatter", "heatmap"],
              log := ["Failed to boot dashboard"] }
          | .ok (mc, _) =>
            match renderMomentumSpiral env d.spiralData with
            | .error _ =>
              { heroText := hero, league := some lc, scoring := some sc,
                scatter := some tc, heatmap := some hc, map := some mc,
                renderedCharts := ["league", "scoring", "scatter", "heatmap", "map"],
                log := ["Failed to boot dashboard"] }
            | .ok (pc, _) =>
              { heroText := hero, league := some lc, scoring := some sc,
                scatter := some tc, heatmap := some hc, map := some mc,
                spiral := some pc,
                renderedCharts := ["league", "scoring", "scatter", "heatmap",
                                   "map", "spiral"],
                storySetup := true, log := [] }

/-- The whole of `init`: await the seven fetches together; on any
rejection the `catch` logs the boot error and nothing is rendered,
registered or wired — otherwise proceed with the try-block body. -/
def init (env : DomEnv) (xs ys rs : ℚ → ℚ)
    (proj : ℚ → ℚ → Option (ℚ × ℚ)) (f : FetchResults) : BootResult :=
  match promiseAll f with
  | .error _ => { log := ["Failed to boot dashboard"] }
  | .ok d => initAfterFetch env xs ys rs proj d

/-- The accessor value at an index, `0` out of bounds (in-bounds accesses
are the only ones the bisector performs). -/
def keyAt {α : Type} (key : α → ℚ) (a : List α) (i : ℕ) : ℚ :=
  ((a.get? i).map key).getD 0

/-- The binary-search loop of `d3.bisector(f).left`: while `lo < hi`,
probe `mid = (lo + hi) >>> 1` and move `lo` past it when `f(a[mid]) < x`,
else close `hi` onto it.  The loop runs at most `hi - lo` times, which the
fuel argument makes structural. -/
def bisectLeftAux {α : Type} (key : α → ℚ) (a : List α) (x : ℚ) :
    ℕ → ℕ → ℕ → ℕ
  | 0, lo, _ => lo
  | fuel + 1, lo, hi =>
    if lo < hi then
      let mid := (lo + hi) / 2
      if keyAt key a mid < x then bisectLeftAux key a x fuel (mid + 1) hi
      else bisectLeftAux key a x fuel lo mid
    else lo

/-- `d3.bisector(f).center(a, x)`: `i = left(a, x, 0, a.length - 1)`, then
step back to `i - 1` when `f(a[i-1]) - x > -(f(a[i]) - x)`, i.e. when the
left neighbour is strictly closer; an exact midpoint keeps `i`. -/
def bisectCenter {α : Type} (key : α → ℚ) (a : List α) (x : ℚ) : ℕ :=
  let hi := a.length - 1
  let i := bisectLeftAux key a x hi 0 hi
  if 0 < i ∧ keyAt key a (i - 1) - x > -(keyAt key a i - x) then i - 1 else i

/-- The index `pointerMove` looks up for an inverted pointer position:
`d3.bisector(d => d.season).center(data, seasonValue)`. -/
def pointerIndex (data : List SeasonMetric) (v : ℚ) : ℕ :=
  bisectCenter (fun d => (d.season : ℚ)) data v

/-- The season value at an index of the league data, as the bisector's
accessor reads it. -/
def seasonValueAt (data : List SeasonMetric) (i : ℕ) : ℚ :=
  keyAt (fun d => (d.season : ℚ)) data i

/-- Inversion of `d3.scaleLinear().domain([d0, d1]).range([r0, r1])`:
`invert(mx) = d0 + (mx - r0) / (r1 - r0) * (d1 - d0)`. -/
def linearInvert (d0 d1 r0 r1 mx : ℚ) : ℚ :=
  d0 + (mx - r0) / (r1 - r0) * (d1 - d0)

/-- A store of JavaScript arrays of one element type; a reference is an
index into the store.  `slice`, `filter` and `map` allocate fresh arrays,
`sort` writes its receiver in place. -/
abbrev Heap (α : Type) := List (List α)

/-- Read the array behind a reference (empty for a dangling reference). -/
def readA {α : Type} (h : Heap α) (r : ℕ) : List α := h.getD r []

/-- Overwrite the array behind a reference. -/
def writeA {α : Type} (h : Heap α) (r : ℕ) (v : List α) : Heap α := h.set r v

/-- Allocate a fresh array, returning the new store and its reference. -/
def allocA {α : Type} (h : Heap α) (v : List α) : Heap α × ℕ :=
  (h ++ [v], h.length)

/-- `arr.slice()`: allocate a copy. -/
def jsSlice {α : Type} (h : Heap α) (r : ℕ) : Heap α × ℕ :=
  allocA h (readA h r)

/-- `arr.sort(cmp)`: replace the receiver's contents with the sorted
contents, in place. -/
def jsSortOn {α : Type} (sortFn : List α → List α) (h : Heap α) (r : ℕ) :
    Heap α :=
  writeA h r (sortFn (readA h r))

/-- `arr.filter(p)`: allocate the filtered copy. -/
def jsFilter {α : Type} (p : α → Bool) (h : Heap α) (r : ℕ) : Heap α × ℕ :=
  allocA h ((readA h r).filter p)

/-- The array operations `updateHeroMetrics` performs on its argument:
`data.slice().sort(...)` (sort applied to the copy), then the growth from
the sorted copy. -/
def heroPrep (h : Heap SeasonMetric) (r : ℕ) : Heap SeasonMetric × Option ℚ :=
  let data := readA h r
  if data.isEmpty then (h, none)
  else
    let p := jsSlice h r
    let h2 := jsSortOn sortBySeason p.1 p.2
    (h2, growthOfSorted (readA h2 p.2))

/-- The array operations `renderLeagueTrends` performs on its argument:
`rawData.slice().sort((a, b) => a.season - b.season)`. -/
def leaguePrep (h : Heap SeasonMetric) (r : ℕ) :
    Heap SeasonMetric × List SeasonMetric :=
  let p := jsSlice h r
  let h2 := jsSortOn sortBySeason p.1 p.2
  (h2, readA h2 p.2)

/-- The array operations `renderScoringMix` performs on its argument:
slice then in-place sort of the copy. -/
def scoringPrep (h : Heap ScoringMixRecord) (r : ℕ) :
    Heap ScoringMixRecord × List ScoringMixRecord :=
  let p := jsSlice h r
  let h2 := jsSortOn (sortByQ (fun d => (d.season : ℚ))) p.1 p.2
  (h2, readA h2 p.2)

/-- The array operations `renderTeamScatter` performs on its argument:
`rawData.filter(d => d.avgThreeAttempts && d.threePct)` allocates. -/
def scatterPrep (h : Heap TeamSeasonStat) (r : ℕ) : Heap TeamSeasonStat × ℕ :=
  jsFilter (fun d => decide (d.avgThreeAttempts ≠ 0) && decide (d.threePct ≠ 0)) h r

/-- The array operations `renderHeatmap` performs on its argument:
`rawData.slice()`; the `teams` array that is later sorted in place is a
fresh `Array.from(new Set(...))` allocation, not the input. -/
def heatmapPrep (h : Heap HeatmapCell) (r : ℕ) :
    Heap HeatmapCell × List String :=
  let p := jsSlice h r
  (p.1, heatmapTeams (readA p.1 p.2))

/-- The array operations `renderTeamMap` performs on its argument:
`teamData.map(...)` and `.filter(Boolean)` allocate fresh arrays and
write nothing. -/
def mapPrep (h : Heap TeamGeoStat) (r : ℕ)
    (proj : ℚ → ℚ → Option (ℚ × ℚ)) : Heap TeamGeoStat × List PositionedTeam :=
  (h, (readA h r).filterMap (fun d =>
    (proj d.lon d.lat).map (fun c =>
      { team := d.team, city := d.city, conference := d.conference,
        offRtg := d.offRtg, threeRate := d.threeRate,
        threePct := d.threePct, cx := c.1, cy := c.2 })))

/-- The array operations `renderMomentumSpiral` performs on its argument:
slice then in-place sort of the copy. -/
def spiralPrep (h : Heap MomentumPoint) (r : ℕ) :
    Heap MomentumPoint × List MomentumPoint :=
  let p := jsSlice h r
  let h2 := jsSortOn (sortByQ (fun d => (d.season : ℚ))) p.1 p.2
  (h2, readA h2 p.2)

theorem sortBySeason_perm (l : List SeasonMetric) : sortBySeason l ~ l :=
  sortByQ_perm _ l

/-- Claim C1: for every non-empty `SeasonMetric` array (unique per season,
as the data model requires), `updateHeroMetrics` computes growth as
`(last.avgThreeRate - first.avgThreeRate) / first.avgThreeRate * 100`
where first and last are the records with the chronologically smallest
and largest season, and the result is invariant under permutation of the
input because the function sorts a copy by season first. -/
theorem updateHeroMetrics_growth_spec (l₁ l₂ : List SeasonMetric)
    (hne : l₁ ≠ []) (hnd : (l₁.map (fun d => d.season)).Nodup) (hp : l₁ ~ l₂) :
    heroGrowth l₁ = heroGrowth l₂ ∧
    ∃ f l, f ∈ l₁ ∧ l ∈ l₁ ∧
      (∀ d ∈ l₁, f.season ≤ d.season ∧ d.season ≤ l.season) ∧
      heroGrowth l₁ = some ((l.avgThreeRate - f.avgThreeRate) / f.avgThreeRate * 100) := by
  have hndq : (l₁.map (fun d => ((d.season : ℤ) : ℚ))).Nodup := by
    have hmm : l₁.map (fun d => ((d.season : ℤ) : ℚ))
        = (l₁.map (fun d => d.season)).map (fun z => ((z : ℤ) : ℚ)) := by
      rw [List.map_map]
      rfl
    rw [hmm]
    exact hnd.map (fun a b hab => by exact_mod_cast hab)
  constructor
  · have hsorteq : sortBySeason l₁ = sortBySeason l₂ :=
      sortByQ_eq_of_perm _ l₁ l₂ hp hndq
    unfold heroGrowth
    rw [hsorteq]
  · cases hs : sortBySeason l₁ with
    | nil =>
      exact absurd (List.Perm.eq_nil (hs ▸ sortBySeason_perm l₁).symm) hne
    | cons f rest =>
      have hpm : (f :: rest) ~ l₁ := hs ▸ sortBySeason_perm l₁
      have hpw := sortByQ_pairwise (fun d : SeasonMetric => (d.season : ℚ)) l₁
      rw [show sortByQ (fun d : SeasonMetric => (d.season : ℚ)) l₁ = sortBySeason l₁ from rfl,
        hs] at hpw
      refine ⟨f, lastD f rest, hpm.subset (List.mem_cons.mpr (Or.inl rfl)),
        hpm.subset (lastD_mem f rest), fun d hd => ?_, ?_⟩
      · have hd' : d ∈ f :: rest := hpm.symm.subset hd
        constructor
        · rcases List.mem_cons.mp hd' with rfl | hd''
          · exact le_refl _
          · have := (List.pairwise_cons.mp hpw).1 d hd''
            exact_mod_cast this
        · have := @lastD_pairwise SeasonMetric
            (fun p q => ((p.season : ℚ)) ≤ ((q.season : ℚ)))
            (fun a => le_refl _) f rest hpw d hd'
          exact_mod_cast this
      · unfold heroGrowth
        rw [hs]
        rfl

/-- Witness for C1 at the spec's concrete example: seasons 2015 (rate
0.300) and 2020 (rate 0.360) in either order give growth +20.0. -/
theorem updateHeroMetrics_growth_witness :
    heroGrowth [⟨2015, 0, 0, 3/10⟩, ⟨2020, 0, 0, 36/100⟩] =
      heroGrowth [⟨2020, 0, 0, 36/100⟩, ⟨2015, 0, 0, 3/10⟩] ∧
    heroGrowth [⟨2020, 0, 0, 36/100⟩, ⟨2015, 0, 0, 3/10⟩] = some 20 :=
  ⟨(updateHeroMetrics_growth_spec
      [⟨2015, 0, 0, 3/10⟩, ⟨2020, 0, 0, 36/100⟩]
      [⟨2020, 0, 0, 36/100⟩, ⟨2015, 0, 0, 3/10⟩]
      (by simp) (by simp) (List.Perm.swap _ _ [])).1,
   by norm_num [heroGrowth, sortBySeason, sortByQ, insertByQ, growthOfSorted, lastD]⟩

theorem keyAt_of_lt {α : Type} (key : α → ℚ) (a : List α) (i : ℕ)
    (hi : i < a.length) : keyAt key a i = key (a.get ⟨i, hi⟩) := by
  simp [keyAt, List.get?_eq_getElem?, List.getElem?_eq_getElem hi]

theorem keyAt_mono {α : Type} (key : α → ℚ) (a : List α)
    (hs : a.Pairwise (fun p q => key p ≤ key q)) (i j : ℕ) (hij : i ≤ j)
    (hj : j < a.length) : keyAt key a i ≤ keyAt key a j := by
  rcases Nat.eq_or_lt_of_le hij with rfl | hlt
  · exact le_refl _
  · have hi : i < a.length := lt_trans hlt hj
    rw [keyAt_of_lt key a i hi, keyAt_of_lt key a j hj]
    exact (List.pairwise_iff_get.mp hs) ⟨i, hi⟩ ⟨j, hj⟩ hlt

theorem bisectLeftAux_spec {α : Type} (key : α → ℚ) (a : List α) (x : ℚ)
    (hs : a.Pairwise (fun p q => key p ≤ key q)) :
    ∀ (fuel lo hi : ℕ), hi - lo ≤ fuel → lo ≤ hi → hi ≤ a.length →
      lo ≤ bisectLeftAux key a x fuel lo hi ∧
      bisectLeftAux key a x fuel lo hi ≤ hi ∧
      (∀ k, lo ≤ k → k < bisectLeftAux key a x fuel lo hi → keyAt key a k < x) ∧
      (∀ k, bisectLeftAux key a x fuel lo hi ≤ k → k < hi → x ≤ keyAt key a k) := by
  intro fuel
  induction fuel with
  | zero =>
    intro lo hi hfuel hlohi _hlen
    have : lo = hi := by omega
    subst this
    simp only [bisectLeftAux]
    exact ⟨le_refl _, le_refl _, fun k h1 h2 => absurd (lt_of_le_of_lt h1 h2) (lt_irrefl _),
      fun k h1 h2 => absurd (lt_of_le_of_lt h1 h2) (lt_irrefl _)⟩
  | succ fuel ih =>
    intro lo hi hfuel hlohi hlen
    simp only [bisectLeftAux]
    by_cases hlh : lo < hi
    · rw [if_pos hlh]
      have hmidlo : lo ≤ (lo + hi) / 2 := by omega
      have hmidhi : (lo + hi) / 2 < hi := by omega
      by_cases hkey : keyAt key a ((lo + hi) / 2) < x
      · rw [if_pos hkey]
        have h1 : hi - ((lo + hi) / 2 + 1) ≤ fuel := by omega
        have h2 : (lo + hi) / 2 + 1 ≤ hi := by omega
        obtain ⟨ha, hb, hc, hd⟩ := ih ((lo + hi) / 2 + 1) hi h1 h2 hlen
        refine ⟨by omega, hb, fun k hk1 hk2 => ?_, hd⟩
        by_cases hkm : k ≤ (lo + hi) / 2
        · exact lt_of_le_of_lt
            (keyAt_mono key a hs k ((lo + hi) / 2) hkm (lt_of_lt_of_le hmidhi hlen)) hkey
        · exact hc k (by omega) hk2
      · rw [if_neg hkey]
        have h1 : (lo + hi) / 2 - lo ≤ fuel := by omega
        have h2 : lo ≤ (lo + hi) / 2 := hmidlo
        obtain ⟨ha, hb, hc, hd⟩ := ih lo ((lo + hi) / 2) h1 h2
          (le_trans (le_of_lt hmidhi) hlen)
        refine ⟨ha, by omega, hc, fun k hk1 hk2 => ?_⟩
        by_cases hkm : k < (lo + hi) / 2
        · exact hd k hk1 hkm
        · have hx : x ≤ keyAt key a ((lo + hi) / 2) := le_of_not_lt hkey
          exact le_trans hx
            (keyAt_mono key a hs ((lo + hi) / 2) k (by omega) (lt_of_lt_of_le hk2 hlen))
    · rw [if_neg hlh]
      have : lo = hi := by omega
      subst this
      exact ⟨le_refl _, le_refl _, fun k h1 h2 => absurd (lt_of_le_of_lt h1 h2) (lt_irrefl _),
        fun k h1 h2 => absurd (lt_of_le_of_lt h1 h2) (lt_irrefl _)⟩

theorem bisectCenter_nearest {α : Type} (key : α → ℚ) (a : List α) (x : ℚ)
    (hne : a ≠ []) (hs : a.Pairwise (fun p q => key p ≤ key q)) :
    bisectCenter key a x < a.length ∧
    ∀ j, j < a.length → |keyAt key a (bisectCenter key a x) - x| ≤ |keyAt key a j - x| := by
  have hlen : 0 < a.length := List.length_pos.mpr hne
  obtain ⟨hio, hih, hlow, hhigh⟩ := bisectLeftAux_spec key a x hs
    (a.length - 1) 0 (a.length - 1) (by omega) (by omega) (by omega)
  set i := bisectLeftAux key a x (a.length - 1) 0 (a.length - 1) with hidef
  have habs1 : ∀ j, keyAt key a j - x ≤ |keyAt key a j - x| := fun j => le_abs_self _
  have habs2 : ∀ j, x - keyAt key a j ≤ |keyAt key a j - x| := fun j => by
    rw [abs_sub_comm]; exact le_abs_self _
  have hbc : bisectCenter key a x
      = if 0 < i ∧ keyAt key a (i - 1) - x > -(keyAt key a i - x) then i - 1 else i := rfl
  rw [hbc]
  by_cases hcond : 0 < i ∧ keyAt key a (i - 1) - x > -(keyAt key a i - x)
  · rw [if_pos hcond]
    obtain ⟨hipos, hmid⟩ := hcond
    have hi1lt : i - 1 < a.length := by omega
    have hleft : keyAt key a (i - 1) < x := hlow (i - 1) (by omega) (by omega)
    refine ⟨by omega, fun j hj => ?_⟩
    rw [abs_of_nonpos (by linarith)]
    by_cases hji : j ≤ i - 1
    · have := keyAt_mono key a hs j (i - 1) hji hi1lt
      have h2 := habs2 j
      linarith
    · have hij' : i ≤ j := by omega
      have := keyAt_mono key a hs i j hij' hj
      have h1 := habs1 j
      linarith
  · rw [if_neg hcond]
    by_cases hi0 : i = 0
    · rw [hi0]
      refine ⟨by omega, fun j hj => ?_⟩
      by_cases hj0 : j = 0
      · subst hj0; exact le_refl _
      · have hjpos : 0 < j := by omega
        have hn2 : 0 < a.length - 1 := by omega
        have hx0 : x ≤ keyAt key a 0 := hhigh 0 (by omega) hn2
        have := keyAt_mono key a hs 0 j (by omega) hj
        rw [abs_of_nonneg (by linarith)]
        have h1 := habs1 j
        linarith
    · have hipos : 0 < i := by omega
      have hle : keyAt key a (i - 1) - x ≤ -(keyAt key a i - x) := by
        by_contra hcon
        exact hcond ⟨hipos, lt_of_not_le hcon⟩
      have hi1lt : i - 1 < a.length := by omega
      have hleft : keyAt key a (i - 1) < x := hlow (i - 1) (by omega) (by omega)
      have hilt : i < a.length := by omega
      refine ⟨hilt, fun j hj => ?_⟩
      by_cases hilast : i = a.length - 1
      · rcases le_or_lt x (keyAt key a i) with hxi | hxi
        · rw [abs_of_nonneg (by linarith)]
          by_cases hji : j ≤ i - 1
          · have := keyAt_mono key a hs j (i - 1) hji hi1lt
            have h2 := habs2 j
            linarith
          · have hij' : i ≤ j := by omega
            have := keyAt_mono key a hs i j hij' hj
            have h1 := habs1 j
            linarith
        · rw [abs_of_nonpos (by linarith)]
          have hji : j ≤ i := by omega
          have := keyAt_mono key a hs j i hji hilt
          have h2 := habs2 j
          linarith
      · have hx : x ≤ keyAt key a i := hhigh i (le_refl _) (by omega)
        rw [abs_of_nonneg (by linarith)]
        by_cases hji : j ≤ i - 1
        · have := keyAt_mono key a hs j (i - 1) hji hi1lt
          have h2 := habs2 j
          linarith
        · have hij' : i ≤ j := by omega
          have := keyAt_mono key a hs i j hij' hj
          have h1 := habs1 j
          linarith

/-- Claim C8: for a sorted season array and any pointer position, the
centered bisection of `pointerMove` returns a valid index whose season is
closest to the inverted pointer position (ties at an exact midpoint are
broken deterministically by the center convention, which keeps the right
neighbour); the lookup is a pure function, so repeated calls with the
same pointer position return the same index. -/
theorem pointer_lookup_nearest (data : List SeasonMetric) (d0 d1 r0 r1 mx : ℚ)
    (hne : data ≠ []) (hs : data.Pairwise (fun p q => p.season ≤ q.season)) :
    pointerIndex data (linearInvert d0 d1 r0 r1 mx) < data.length ∧
    ∀ j, j < data.length →
      |seasonValueAt data (pointerIndex data (linearInvert d0 d1 r0 r1 mx))
          - linearInvert d0 d1 r0 r1 mx|
        ≤ |seasonValueAt data j - linearInvert d0 d1 r0 r1 mx| := by
  have hs' : data.Pairwise (fun p q => ((p.season : ℚ)) ≤ ((q.season : ℚ))) :=
    hs.imp (fun h => by exact_mod_cast h)
  exact bisectCenter_nearest (fun d => ((d.season : ℚ))) data
    (linearInvert d0 d1 r0 r1 mx) hne hs'

/-- Witness for C8: seasons 2018, 2019, 2020 with the pointer exactly
between 2018 and 2019 (scale domain 2018 to 2020, range 0 to 2, pointer
at 0.5, inverted value 2018.5): the lookup stays in bounds and resolves
the midpoint tie to index 1. -/
theorem pointer_lookup_nearest_witness :
    pointerIndex [⟨2018, 0, 0, 0⟩, ⟨2019, 0, 0, 0⟩, ⟨2020, 0, 0, 0⟩]
        (linearInvert 2018 2020 0 2 (1 / 2)) = 1 ∧
    pointerIndex [⟨2018, 0, 0, 0⟩, ⟨2019, 0, 0, 0⟩, ⟨2020, 0, 0, 0⟩]
        (linearInvert 2018 2020 0 2 (1 / 2))
      < List.length [(⟨2018, 0, 0, 0⟩ : SeasonMetric), ⟨2019, 0, 0, 0⟩, ⟨2020, 0, 0, 0⟩] := by
  constructor
  · norm_num [pointerIndex, bisectCenter, bisectLeftAux, keyAt, linearInvert]
  · exact (pointer_lookup_nearest
      [⟨2018, 0, 0, 0⟩, ⟨2019, 0, 0, 0⟩, ⟨2020, 0, 0, 0⟩]
      2018 2020 0 2 (1 / 2) (by simp) (by decide)).1

/-- Counterexample to C2 as stated: with the `#leagueTrendChart` container
absent, `renderLeagueTrends` does not warn-and-return an empty control
object — it throws the null-dereference TypeError (and the same container
access begins every renderer). -/
theorem renderer_missing_anchor_counterexample :
    renderLeagueTrends
      { leagueTrendChart := false, scoringMixChart := false, teamScatter := false,
        heatmapChart := false, teamMap := false, momentumSpiral := false,
        seasonSlider := false, seasonLabel := false, teamInsight := false,
        seasonSliderValue := none } []
      = .error nullAnchorError := rfl

/-- Claim C2 (amended): only the team scatter renderer guards DOM anchors,
and only its auxiliary elements (`#seasonSlider`, `#seasonLabel`,
`#teamInsight`): when its container is present but any of those three is
absent it logs a warning and returns the empty control object.  A missing
chart container element instead makes each of the six renderers throw a
TypeError (caught by `init`, which aborts the boot). -/
theorem renderers_anchor_handling (env : DomEnv) (xs ys rs : ℚ → ℚ)
    (proj : ℚ → ℚ → Option (ℚ × ℚ)) (rawL : List SeasonMetric)
    (rawS : List ScoringMixRecord) (rawT : List TeamSeasonStat)
    (rawH : List HeatmapCell) (rawG : List TeamGeoStat)
    (rawM : List MomentumPoint) (topo : Option Unit) :
    (env.teamScatter = true →
      (env.seasonSlider = false ∨ env.seasonLabel = false ∨ env.teamInsight = false) →
      renderTeamScatter env xs ys rs rawT =
        .ok (.empty, ["Missing slider elements for the team scatter chart."])) ∧
    (env.leagueTrendChart = false →
      renderLeagueTrends env rawL = .error nullAnchorError) ∧
    (env.scoringMixChart = false →
      renderScoringMix env rawS = .error nullAnchorError) ∧
    (env.teamScatter = false →
      renderTeamScatter env xs ys rs rawT = .error nullAnchorError) ∧
    (env.heatmapChart = false →
      renderHeatmap env rawH = .error nullAnchorError) ∧
    (env.teamMap = false →
      renderTeamMap env proj rawG topo = .error nullAnchorError) ∧
    (env.momentumSpiral = false →
      renderMomentumSpiral env rawM = .error nullAnchorError) := by
  refine ⟨fun henv haux => ?_, fun h => ?_, fun h => ?_, fun h => ?_,
    fun h => ?_, fun h => ?_, fun h => ?_⟩
  · simp only [renderTeamScatter, henv, if_true]
    rcases haux with h | h | h <;> simp [h]
  · simp [renderLeagueTrends, h]
  · simp [renderScoringMix, h]
  · simp [renderTeamScatter, h]
  · simp [renderHeatmap, h]
  · simp [renderTeamMap, h]
  · simp [renderMomentumSpiral, h]

/-- Witness for the amended C2: a page with the scatter container present
but the slider elements absent gets the warn-and-empty-control behaviour,
while the absent league container makes that renderer throw. -/
theorem renderers_anchor_handling_witness :
    renderTeamScatter
      { leagueTrendChart := false, scoringMixChart := false, teamScatter := true,
        heatmapChart := false, teamMap := false, momentumSpiral := false,
        seasonSlider := false, seasonLabel := true, teamInsight := true,
        seasonSliderValue := none } id id id []
      = .ok (.empty, ["Missing slider elements for the team scatter chart."]) ∧
    renderLeagueTrends
      { leagueTrendChart := false, scoringMixChart := false, teamScatter := true,
        heatmapChart := false, teamMap := false, momentumSpiral := false,
        seasonSlider := false, seasonLabel := true, teamInsight := true,
        seasonSliderValue := none } []
      = .error nullAnchorError :=
  ⟨(renderers_anchor_handling _ id id id (fun _ _ => none) [] [] [] [] [] [] none).1
     rfl (Or.inl rfl),
   (renderers_anchor_handling _ id id id (fun _ _ => none) [] [] [] [] [] [] none).2.1
     rfl⟩

/-- Claim C3: `init` awaits all dataset fetches together, and when any
single fetch or parse fails the whole initialization aborts with the
logged boot error: no hero text, no chart rendered, no controller
registered, the story-step controller not set up, and no retry (the
result is final). -/
theorem bootstrap_aborts_on_fetch_failure (env : DomEnv) (xs ys rs : ℚ → ℚ)
    (proj : ℚ → ℚ → Option (ℚ × ℚ)) (f : FetchResults)
    (hfail : f.leagueTrends.isOk = false ∨ f.scoringMix.isOk = false ∨
      f.teamScatter.isOk = false ∨ f.heatmapData.isOk = false ∨
      f.teamMapData.isOk = false ∨ f.spiralData.isOk = false ∨
      f.statesTopo.isOk = false) :
    init env xs ys rs proj f =
      { heroText := none, league := none, scoring := none, scatter := none,
        heatmap := none, map := none, spiral := none, renderedCharts := [],
        storySetup := false, log := ["Failed to boot dashboard"] } := by
  rcases f with ⟨lt, sm, ts, hm, tm, sp, topo⟩
  cases lt <;> cases sm <;> cases ts <;> cases hm <;> cases tm <;> cases sp <;>
    cases topo <;> simp_all [init, promiseAll, Except.isOk, Except.toBool]

/-- Witness for C3: a boot in which the league-trends fetch rejects and
every other fetch resolves produces the empty dashboard with only the
boot error logged. -/
theorem bootstrap_abort_witness :
    init
      { leagueTrendChart := true, scoringMixChart := true, teamScatter := true,
        heatmapChart := true, teamMap := true, momentumSpiral := true,
        seasonSlider := true, seasonLabel := true, teamInsight := true,
        seasonSliderValue := none } id id id (fun _ _ => none)
      { leagueTrends := .error (JsError.typeError "NetworkError"),
        scoringMix := .ok [], teamScatter := .ok [], heatmapData := .ok [],
        teamMapData := .ok [], spiralData := .ok [], statesTopo := .ok none } =
      { heroText := none, league := none, scoring := none, scatter := none,
        heatmap := none, map := none, spiral := none, renderedCharts := [],
        storySetup := false, log := ["Failed to boot dashboard"] } :=
  bootstrap_aborts_on_fetch_failure _ id id id (fun _ _ => none) _ (Or.inl rfl)

/-- Claim C4: the heatmap's row order is a total order over the team
codes (a permutation, without duplicates, of the codes in order of first
appearance) sorted by descending latest-season three-point rate; a team
with no record in the latest season is ranked with rate 0; and the sort
is stable, so equal-rate teams keep their first-appearance order. -/
theorem heatmap_row_order (data : List HeatmapCell) :
    heatmapTeams data ~ dedupFirst (data.map (fun d => d.abbr)) ∧
    (heatmapTeams data).Nodup ∧
    (heatmapTeams data).Pairwise (fun a b => latestRate data b ≤ latestRate data a) ∧
    (∀ a b, latestRate data a = latestRate data b →
      [a, b] <+ dedupFirst (data.map (fun d => d.abbr)) →
      [a, b] <+ heatmapTeams data) ∧
    (∀ a, (∀ d ∈ data, ¬(latestSeasonOf data = some d.season ∧ d.abbr = a)) →
      latestRate data a = 0) := by
  have hperm := sortByQ_perm (fun a => -(latestRate data a))
    (dedupFirst (data.map (fun d => d.abbr)))
  refine ⟨hperm, hperm.symm.nodup (dedupFirst_nodup _), ?_, ?_, ?_⟩
  · exact List.Pairwise.imp (fun h => neg_le_neg_iff.mp h)
      (sortByQ_pairwise (fun a => -(latestRate data a)) _)
  · intro a b hab hsub
    exact sortByQ_stable _ a b _ (by rw [hab]) hsub
  · intro a hnone
    unfold latestRate
    have hfind : data.find? (fun d =>
        decide (latestSeasonOf data = some d.season) && decide (d.abbr = a)) = none := by
      rw [List.find?_eq_none]
      intro d hd
      simp only [Bool.and_eq_true, decide_eq_true_eq, not_and]
      intro h1 h2
      exact hnone d hd ⟨h1, h2⟩
    rw [hfind]

/-- Witness for C4 on concrete data: latest season 2020, rates BBB 5 and
DDD 5 (tied, BBB first), AAA 3, and CCC present only in 2019 (ranked with
rate 0): rows come out BBB, DDD, AAA, CCC. -/
theorem heatmap_row_order_witness :
    heatmapTeams
        [⟨2019, "CCC", "", "", 9, 0⟩, ⟨2020, "BBB", "", "", 5, 0⟩,
         ⟨2020, "AAA", "", "", 3, 0⟩, ⟨2020, "DDD", "", "", 5, 0⟩]
      = ["BBB", "DDD", "AAA", "CCC"] ∧
    ["BBB", "DDD"] <+ heatmapTeams
        [⟨2019, "CCC", "", "", 9, 0⟩, ⟨2020, "BBB", "", "", 5, 0⟩,
         ⟨2020, "AAA", "", "", 3, 0⟩, ⟨2020, "DDD", "", "", 5, 0⟩] ∧
    latestRate
        [⟨2019, "CCC", "", "", 9, 0⟩, ⟨2020, "BBB", "", "", 5, 0⟩,
         ⟨2020, "AAA", "", "", 3, 0⟩, ⟨2020, "DDD", "", "", 5, 0⟩] "CCC" = 0 :=
  ⟨by decide,
   (heatmap_row_order _).2.2.2.1 "BBB" "DDD" (by decide) (by decide),
   (heatmap_row_order _).2.2.2.2 "CCC" (by decide)⟩

/-- Claim C5: a record of the displayed season whose `winPct` is missing
gets a bubble whose radius is the radius scale applied to the default 0.5
(the midpoint of the scale's [0.2, 0.8] domain), its tooltip shows "N/A"
for the win percentage, and the update processes the record without
throwing (the bubble is produced by the total update function). -/
theorem scatter_missing_winPct (xs ys rs : ℚ → ℚ) (data : List TeamSeasonStat)
    (season : ℤ) (st : ScatterState) (d : TeamSeasonStat)
    (hd : d ∈ data.filter (fun e => decide (e.season = season)))
    (hw : d.winPct = none) :
    mkBubble xs ys rs d ∈ (updateScatterSeason xs ys rs data season st).1.bound ∧
    (mkBubble xs ys rs d).rTarget = rs (1 / 2) ∧
    winPctText d = "N/A" ∧
    scatterTooltipHtml d = scatterTooltipBase d ++ "N/A" ∧
    (scatterRDomain.1 + scatterRDomain.2) / 2 = 1 / 2 := by
  refine ⟨?_, ?_, ?_, ?_, by norm_num [scatterRDomain]⟩
  · simpa [updateScatterSeason] using List.mem_map_of_mem (mkBubble xs ys rs) hd
  · simp [mkBubble, hw]
  · simp [winPctText, hw]
  · simp [scatterTooltipHtml, winPctText, hw]

/-- Witness for C5: a 2020 record with no `winPct` yields the default
radius input and the "N/A" tooltip text. -/
theorem scatter_missing_winPct_witness :
    mkBubble id id id ⟨2020, 7, "Foo", "Bars", "East", 30, 0, none⟩ ∈
      (updateScatterSeason id id id
        [⟨2020, 7, "Foo", "Bars", "East", 30, 0, none⟩] 2020
        { label := "", insight := "", bound := [] }).1.bound ∧
    (mkBubble id id id ⟨2020, 7, "Foo", "Bars", "East", 30, 0, none⟩).rTarget
      = id (1 / 2) ∧
    winPctText ⟨2020, 7, "Foo", "Bars", "East", 30, 0, none⟩ = "N/A" ∧
    scatterTooltipHtml ⟨2020, 7, "Foo", "Bars", "East", 30, 0, none⟩
      = scatterTooltipBase ⟨2020, 7, "Foo", "Bars", "East", 30, 0, none⟩ ++ "N/A" ∧
    (scatterRDomain.1 + scatterRDomain.2) / 2 = 1 / 2 :=
  scatter_missing_winPct id id id
    [⟨2020, 7, "Foo", "Bars", "East", 30, 0, none⟩] 2020
    { label := "", insight := "", bound := [] }
    ⟨2020, 7, "Foo", "Bars", "East", 30, 0, none⟩ (by decide) rfl

/-- Claim C7: the scatter season update is idempotent — running
`updateSeason` twice with the same season leaves exactly the state of one
run (same bound set keyed by `teamId`, same target positions and radii,
same label and insight), the second join enters and exits nothing (no
duplicate nodes), and with per-season-unique team ids the bound keys are
duplicate-free. -/
theorem scatter_update_idempotent (xs ys rs : ℚ → ℚ) (data : List TeamSeasonStat)
    (season : ℤ) (st : ScatterState) :
    (updateScatterSeason xs ys rs data season
        (updateScatterSeason xs ys rs data season st).1).1 =
      (updateScatterSeason xs ys rs data season st).1 ∧
    (updateScatterSeason xs ys rs data season
        (updateScatterSeason xs ys rs data season st).1).2.entered = [] ∧
    (updateScatterSeason xs ys rs data season
        (updateScatterSeason xs ys rs data season st).1).2.exited = [] ∧
    (((data.filter (fun d => decide (d.season = season))).map
        (fun d => d.teamId)).Nodup →
      ((updateScatterSeason xs ys rs data season st).1.bound.map
        (fun b => b.teamId)).Nodup) := by
  have hkeys : (updateScatterSeason xs ys rs data season st).1.bound.map
      (fun b => b.teamId)
      = (data.filter (fun d => decide (d.season = season))).map
        (fun d => d.teamId) := by
    simp [updateScatterSeason, List.map_map, mkBubble]
  refine ⟨rfl, ?_, ?_, fun h => hkeys ▸ h⟩
  · simp only [updateScatterSeason]
    rw [List.filter_eq_nil_iff]
    intro k hk
    intro hcontra
    rw [Bool.not_eq_true', ← Bool.not_eq_true] at hcontra
    exact absurd (by simpa using hk) hcontra
  · simp only [updateScatterSeason]
    rw [List.filter_eq_nil_iff]
    intro k hk
    intro hcontra
    rw [Bool.not_eq_true', ← Bool.not_eq_true] at hcontra
    exact absurd (by simpa using hk) hcontra

/-- Witness for C7: two teams in season 2020; the repeated update
reproduces the state of the single update and the bound keys stay
duplicate-free. -/
theorem scatter_update_idempotent_witness :
    (updateScatterSeason id id id
        [⟨2020, 1, "A", "B", "East", 30, 0, none⟩,
         ⟨2020, 2, "C", "D", "West", 25, 0, none⟩] 2020
        (updateScatterSeason id id id
          [⟨2020, 1, "A", "B", "East", 30, 0, none⟩,
           ⟨2020, 2, "C", "D", "West", 25, 0, none⟩] 2020
          { label := "", insight := "", bound := [] }).1).1 =
      (updateScatterSeason id id id
        [⟨2020, 1, "A", "B", "East", 30, 0, none⟩,
         ⟨2020, 2, "C", "D", "West", 25, 0, none⟩] 2020
        { label := "", insight := "", bound := [] }).1 ∧
    ((updateScatterSeason id id id
        [⟨2020, 1, "A", "B", "East", 30, 0, none⟩,
         ⟨2020, 2, "C", "D", "West", 25, 0, none⟩] 2020
        { label := "", insight := "", bound := [] }).1.bound.map
      (fun b => b.teamId)).Nodup :=
  ⟨(scatter_update_idempotent id id id
      [⟨2020, 1, "A", "B", "East", 30, 0, none⟩,
       ⟨2020, 2, "C", "D", "West", 25, 0, none⟩] 2020
      { label := "", insight := "", bound := [] }).1,
   (scatter_update_idempotent id id id
      [⟨2020, 1, "A", "B", "East", 30, 0, none⟩,
       ⟨2020, 2, "C", "D", "West", 25, 0, none⟩] 2020
      { label := "", insight := "", bound := [] }).2.2.2 (by decide)⟩

/-- Claim C6: on league data with at least two (distinct) seasons, calling
the control's `setMetric("avgPoints")` and then `focusSeason` on the
second season returns without error, and the tooltip then contains
exactly the avgPoints row — the rows of the other metrics are excluded
while the metric filter is active. -/
theorem league_metric_filter_tooltip (env : DomEnv) (raw : List SeasonMetric)
    (d1 d2 : SeasonMetric) (rest : List SeasonMetric)
    (henv : env.leagueTrendChart = true)
    (hsort : sortBySeason raw = d1 :: d2 :: rest)
    (hne : d1.season ≠ d2.season) :
    renderLeagueTrends env raw =
      .ok ({ data := d1 :: d2 :: rest, activeMetric := none,
             crosshairSeason := none, tooltip := none }, []) ∧
    leagueFocusSeason (some d2.season)
        (leagueSetMetric (some "avgPoints")
          { data := d1 :: d2 :: rest, activeMetric := none,
            crosshairSeason := none, tooltip := none }) =
      .ok { data := d1 :: d2 :: rest, activeMetric := some "avgPoints",
            crosshairSeason := some d2.season,
            tooltip := some { season := d2.season,
                              rows := [("avgPoints",
                                "Points per team game: "
                                  ++ fmt1 d2.avgPoints ++ " pts")] } } := by
  constructor
  · simp [renderLeagueTrends, henv, hsort]
  · have e1 : (d1 :: d2 :: rest).find?
          (fun d => decide ((some d2.season : Option ℤ) = some d.season))
        = (d2 :: rest).find?
          (fun d => decide ((some d2.season : Option ℤ) = some d.season)) :=
      List.find?_cons_of_neg _ (by simp [Ne.symm hne])
    have e2 : (d2 :: rest).find?
          (fun d => decide ((some d2.season : Option ℤ) = some d.season))
        = some d2 :=
      List.find?_cons_of_pos _ (by simp)
    unfold leagueFocusSeason leagueSetMetric
    simp only [e1, e2, Option.orElse, leagueTooltip, metricConfig]
    simp

/-- Witness for C6: two seasons 2015 and 2020; after
`setMetric("avgPoints")` and `focusSeason(2020)` the tooltip holds
exactly the avgPoints row for 2020. -/
theorem league_metric_filter_tooltip_witness :
    renderLeagueTrends
        { leagueTrendChart := true, scoringMixChart := true, teamScatter := true,
          heatmapChart := true, teamMap := true, momentumSpiral := true,
          seasonSlider := true, seasonLabel := true, teamInsight := true,
          seasonSliderValue := none }
        [⟨2015, 10, 100, 0⟩, ⟨2020, 20, 110, 0⟩] =
      .ok ({ data := [⟨2015, 10, 100, 0⟩, ⟨2020, 20, 110, 0⟩], activeMetric := none,
             crosshairSeason := none, tooltip := none }, []) ∧
    leagueFocusSeason (some 2020)
        (leagueSetMetric (some "avgPoints")
          { data := [⟨2015, 10, 100, 0⟩, ⟨2020, 20, 110, 0⟩], activeMetric := none,
            crosshairSeason := none, tooltip := none }) =
      .ok { data := [⟨2015, 10, 100, 0⟩, ⟨2020, 20, 110, 0⟩],
            activeMetric := some "avgPoints",
            crosshairSeason := some 2020,
            tooltip := some { season := 2020,
                              rows := [("avgPoints",
                                "Points per team game: "
                                  ++ fmt1 110 ++ " pts")] } } :=
  league_metric_filter_tooltip
    { leagueTrendChart := true, scoringMixChart := true, teamScatter := true,
      heatmapChart := true, teamMap := true, momentumSpiral := true,
      seasonSlider := true, seasonLabel := true, teamInsight := true,
      seasonSliderValue := none }
    [⟨2015, 10, 100, 0⟩, ⟨2020, 20, 110, 0⟩]
    ⟨2015, 10, 100, 0⟩ ⟨2020, 20, 110, 0⟩ [] rfl (by decide) (by decide)

theorem findOrLast_of_nomatch {α : Type} (p : α → Bool) (l : List α) (x : α)
    (hlast : l.getLast? = some x) (hno : ∀ d ∈ l, ¬p d) :
    (l.find? p).orElse (fun _ => l.getLast?) = some x := by
  have hfind : l.find? p = none := by
    rw [List.find?_eq_none]
    exact hno
  rw [hfind, hlast]
  rfl

theorem getLast?_is_max {α : Type} (seasonOf : α → ℤ) (l : List α) (x : α)
    (hlast : l.getLast? = some x)
    (hs : l.Pairwise (fun p q => seasonOf p ≤ seasonOf q)) :
    ∀ d ∈ l, seasonOf d ≤ seasonOf x := by
  cases l with
  | nil => cases hlast
  | cons y t =>
    rw [getLast?_eq_lastD] at hlast
    have hx : lastD y t = x := by injection hlast
    subst hx
    exact @lastD_pairwise α (fun p q => seasonOf p ≤ seasonOf q)
      (fun a => le_refl _) y t hs

/-- Claim C9: for every season argument matching no record — including
the `none` that models `null`/`undefined` — the `focusSeason` controls of
the league-trends, scoring-mix and momentum-spiral charts neither throw
nor no-op: each silently falls back to the last data point (the
chronologically last season, the data being season-sorted) and focuses
and annotates it. -/
theorem focusSeason_fallback (s : Option ℤ) :
    (∀ (st : LeagueState) (lastL : SeasonMetric),
      st.data.getLast? = some lastL →
      st.data.Pairwise (fun p q => p.season ≤ q.season) →
      (∀ d ∈ st.data, s ≠ some d.season) →
      leagueFocusSeason s st =
        .ok { st with crosshairSeason := some lastL.season,
                      tooltip := some (leagueTooltip st.activeMetric lastL) } ∧
      ∀ d ∈ st.data, d.season ≤ lastL.season) ∧
    (∀ (st : ScoringState) (lastS : ScoringMixRecord),
      st.data.getLast? = some lastS →
      st.data.Pairwise (fun p q => p.season ≤ q.season) →
      (∀ d ∈ st.data, s ≠ some d.season) →
      scoringFocusSeason s st =
        .ok { st with focusLineSeason := some lastS.season,
                      tooltip := some (scoringTooltip lastS) } ∧
      ∀ d ∈ st.data, d.season ≤ lastS.season) ∧
    (∀ (st : SpiralState) (lastM : MomentumPoint),
      st.data.getLast? = some lastM →
      st.data.Pairwise (fun p q => p.season ≤ q.season) →
      (∀ d ∈ st.data, s ≠ some d.season) →
      spiralFocusSeason s st =
        .ok { st with focused := some lastM,
                      labelText := toString lastM.season ++ " momentum wave" } ∧
      ∀ d ∈ st.data, d.season ≤ lastM.season) := by
  refine ⟨fun st lastL hlast hs hno => ⟨?_, ?_⟩,
    fun st lastS hlast hs hno => ⟨?_, ?_⟩,
    fun st lastM hlast hs hno => ⟨?_, ?_⟩⟩
  · unfold leagueFocusSeason
    rw [findOrLast_of_nomatch _ _ _ hlast
      (fun d hd => by simpa using hno d hd)]
  · exact getLast?_is_max (fun d => d.season) st.data lastL hlast hs
  · unfold scoringFocusSeason
    rw [findOrLast_of_nomatch _ _ _ hlast
      (fun d hd => by simpa using hno d hd)]
  · exact getLast?_is_max (fun d => d.season) st.data lastS hlast hs
  · unfold spiralFocusSeason
    rw [findOrLast_of_nomatch _ _ _ hlast
      (fun d hd => by simpa using hno d hd)]
  · exact getLast?_is_max (fun d => d.season) st.data lastM hlast hs

/-- Witness for C9: a `null` season argument on concrete two-season
league and spiral states falls back to the 2020 datum, and 2015 is indeed
no later than the fallback season. -/
theorem focusSeason_fallback_witness :
    leagueFocusSeason none
        { data := [⟨2015, 10, 100, 0⟩, ⟨2020, 20, 110, 0⟩],
          activeMetric := none, crosshairSeason := none, tooltip := none } =
      .ok { data := [⟨2015, 10, 100, 0⟩, ⟨2020, 20, 110, 0⟩],
            activeMetric := none, crosshairSeason := some 2020,
            tooltip := some (leagueTooltip none ⟨2020, 20, 110, 0⟩) } ∧
    spiralFocusSeason none
        { data := [⟨2015, 1, 0, 0⟩, ⟨2020, 2, 0, 0⟩],
          focused := none, labelText := "" } =
      .ok { data := [⟨2015, 1, 0, 0⟩, ⟨2020, 2, 0, 0⟩],
            focused := some ⟨2020, 2, 0, 0⟩,
            labelText := toString (2020 : ℤ) ++ " momentum wave" } ∧
    (2015 : ℤ) ≤ (2020 : ℤ) :=
  ⟨((focusSeason_fallback none).1
      { data := [⟨2015, 10, 100, 0⟩, ⟨2020, 20, 110, 0⟩],
        activeMetric := none, crosshairSeason := none, tooltip := none }
      ⟨2020, 20, 110, 0⟩ (by decide) (by decide) (by simp)).1,
   ((focusSeason_fallback none).2.2
      { data := [⟨2015, 1, 0, 0⟩, ⟨2020, 2, 0, 0⟩],
        focused := none, labelText := "" }
      ⟨2020, 2, 0, 0⟩ (by decide) (by decide) (by simp)).1,
   ((focusSeason_fallback none).1
      { data := [⟨2015, 10, 100, 0⟩, ⟨2020, 20, 110, 0⟩],
        activeMetric := none, crosshairSeason := none, tooltip := none }
      ⟨2020, 20, 110, 0⟩ (by decide) (by decide) (by simp)).2
     ⟨2015, 10, 100, 0⟩ (by decide)⟩

theorem readA_allocA {α : Type} (h : Heap α) (v : List α) (r : ℕ)
    (hr : r < h.length) : readA (allocA h v).1 r = readA h r := by
  simp only [readA, allocA, List.getD, List.get?_eq_getElem?]
  rw [List.getElem?_append, if_pos hr]

theorem readA_writeA_ne {α : Type} (h : Heap α) (r r' : ℕ) (v : List α)
    (hne : r' ≠ r) : readA (writeA h r' v) r = readA h r := by
  simp only [readA, writeA, List.getD, List.get?_eq_getElem?]
  rw [List.getElem?_set_ne hne]

theorem sliceSort_frame {α : Type} (sortFn : List α → List α) (h : Heap α)
    (r : ℕ) (hr : r < h.length) :
    readA (jsSortOn sortFn (jsSlice h r).1 (jsSlice h r).2) r = readA h r := by
  have hne : h.length ≠ r := by omega
  show readA (writeA (h ++ [readA h r]) h.length _) r = readA h r
  rw [readA_writeA_ne _ _ _ _ hne]
  exact readA_allocA h (readA h r) r hr

/-- Claim C10: `updateHeroMetrics` and every renderer leave the caller's
input array unchanged: sorting happens on a `slice()` copy, `filter` and
`map` allocate fresh arrays, so the array behind the caller's reference
reads back identically after each data-preparation pipeline. -/
theorem inputs_unmutated (h1 h2 : Heap SeasonMetric)
    (h3 : Heap ScoringMixRecord) (h4 : Heap TeamSeasonStat)
    (h5 : Heap HeatmapCell) (h6 : Heap TeamGeoStat) (h7 : Heap MomentumPoint)
    (r1 r2 r3 r4 r5 r6 r7 : ℕ) (proj : ℚ → ℚ → Option (ℚ × ℚ))
    (hv1 : r1 < h1.length) (hv2 : r2 < h2.length) (hv3 : r3 < h3.length)
    (hv4 : r4 < h4.length) (hv5 : r5 < h5.length) (hv7 : r7 < h7.length) :
    readA (heroPrep h1 r1).1 r1 = readA h1 r1 ∧
    readA (leaguePrep h2 r2).1 r2 = readA h2 r2 ∧
    readA (scoringPrep h3 r3).1 r3 = readA h3 r3 ∧
    readA (scatterPrep h4 r4).1 r4 = readA h4 r4 ∧
    readA (heatmapPrep h5 r5).1 r5 = readA h5 r5 ∧
    readA (mapPrep h6 r6 proj).1 r6 = readA h6 r6 ∧
    readA (spiralPrep h7 r7).1 r7 = readA h7 r7 := by
  refine ⟨?_, ?_, ?_, ?_, ?_, rfl, ?_⟩
  · by_cases hcase : (readA h1 r1).isEmpty
    · simp [heroPrep, hcase]
    · simp only [heroPrep, hcase, Bool.false_eq_true, if_false]
      exact sliceSort_frame sortBySeason h1 r1 hv1
  · exact sliceSort_frame sortBySeason h2 r2 hv2
  · exact sliceSort_frame (sortByQ (fun d => (d.season : ℚ))) h3 r3 hv3
  · exact readA_allocA h4 _ r4 hv4
  · exact readA_allocA h5 _ r5 hv5
  · exact sliceSort_frame (sortByQ (fun d => (d.season : ℚ))) h7 r7 hv7

/-- Witness for C10: one-array stores read back unchanged through every
pipeline. -/
theorem inputs_unmutated_witness :
    readA (heroPrep [[⟨2020, 1, 2, 3⟩]] 0).1 0 = readA [[⟨2020, 1, 2, 3⟩]] 0 ∧
    readA (leaguePrep [[⟨2020, 1, 2, 3⟩]] 0).1 0 = readA [[⟨2020, 1, 2, 3⟩]] 0 ∧
    readA (scoringPrep [[⟨2020, 1, 2, 3⟩]] 0).1 0 = readA [[⟨2020, 1, 2, 3⟩]] 0 ∧
    readA (scatterPrep [[⟨2020, 7, "A", "B", "East", 30, 0, none⟩]] 0).1 0
      = readA [[⟨2020, 7, "A", "B", "East", 30, 0, none⟩]] 0 ∧
    readA (heatmapPrep [[⟨2020, "AAA", "", "", 5, 0⟩]] 0).1 0
      = readA [[⟨2020, "AAA", "", "", 5, 0⟩]] 0 ∧
    readA (mapPrep [[⟨"A", "B", "East", 1, 2, 3, 4, 5⟩]] 0 (fun _ _ => none)).1 0
      = readA [[⟨"A", "B", "East", 1, 2, 3, 4, 5⟩]] 0 ∧
    readA (spiralPrep [[⟨2020, 1, 2, 3⟩]] 0).1 0 = readA [[⟨2020, 1, 2, 3⟩]] 0 :=
  inputs_unmutated [[⟨2020, 1, 2, 3⟩]] [[⟨2020, 1, 2, 3⟩]] [[⟨2020, 1, 2, 3⟩]]
    [[⟨2020, 7, "A", "B", "East", 30, 0, none⟩]] [[⟨2020, "AAA", "", "", 5, 0⟩]]
    [[⟨"A", "B", "East", 1, 2, 3, 4, 5⟩]] [[⟨2020, 1, 2, 3⟩]]
    0 0 0 0 0 0 0 (fun _ _ => none)
    (by decide) (by decide) (by decide) (by decide) (by decide) (by decide)
